import Mathlib

/-!
Shallow embedding of the `multierror` crate (files `src/sentinel.rs`,
`src/fallible.rs`, `src/outcome.rs`, `src/collector.rs`).

Modelling conventions:
- Rust `Vec<E>` is `List E`; `Vec::push` appends on the right.
- Methods that take `self` by value return the final state of `self` alongside
  their result, because Rust still runs the `Drop` impl on the moved-in `self`
  when the method returns; the destructor check is modelled as a pure function
  from (`std::thread::panicking()` flag, final state) to an optional panic
  message (`some msg` = the destructor panics with `msg`, `none` = no panic).
- `ErrorSentinel.errors` is `Option<Vec<E>>` in the source solely so that the
  consuming methods can move the list out through `&mut self`; it is `Some` at
  every API boundary (every constructor stores `Some`, every method that takes
  it consumes `self`), so the embedding carries the list directly.
- Rust panics in non-destructor methods are modelled as `Option String`
  (the message, `none` = no panic) or `Except String` results. The `{:?}`
  debug formatting of the error list is an opaque parameter
  `dbg : List E → String`.
-/

namespace Multierror

/-- `ErrorSentinel<E>` from `src/sentinel.rs`: the accumulated errors plus the
`handled` flag consulted by the `Drop` impl. -/
structure ErrorSentinel (E : Type) where
  errors : List E
  handled : Bool
deriving DecidableEq

/-- `ErrorSentinelIter<E>` from `src/sentinel.rs`: the number of errors the
originating sentinel held (`original_len`) and the remaining elements of the
`vec::IntoIter` (`iter`). -/
structure ErrorSentinelIter (E : Type) where
  original_len : Nat
  iter : List E
deriving DecidableEq

/-- `Fallible<T, E>` from `src/fallible.rs`: a value plus accumulated errors. -/
structure Fallible (T E : Type) where
  value : T
  errors : List E
deriving DecidableEq

/-- `Outcome<T, E>` from `src/outcome.rs`: a value plus accumulated errors. -/
structure Outcome (T E : Type) where
  value : T
  errors : List E
deriving DecidableEq

/-- The `ErrorCollector<E>` trait from `src/collector.rs`, restricted to the
`push_error` operation that the `propagate` loops use. State mutation through
`&mut self` is modelled by returning the updated collector. -/
class ErrorCollector (σ : Type) (E : Type) where
  push_error : σ → E → σ

/-- `ErrorSentinel::new`: unhandled sentinel with the given errors. -/
def ErrorSentinel.new {E : Type} (errors : List E) : ErrorSentinel E :=
  { errors := errors, handled := false }

/-- `ErrorSentinel::new_empty`: unhandled sentinel with no errors. -/
def ErrorSentinel.new_empty {E : Type} : ErrorSentinel E :=
  { errors := [], handled := false }

/-- Modelled from the spec: `ErrorSentinel::empty`, called by
`Fallible::build` and `Outcome::build` but not present in `src/sentinel.rs`
(which instead provides the identically-shaped `new_empty`); per spec §4.4,
`build` "creates an empty internal sentinel", i.e. an unhandled sentinel with
no errors. -/
def ErrorSentinel.empty {E : Type} : ErrorSentinel E :=
  { errors := [], handled := false }

/-- `ErrorCollector::push_error` for `ErrorSentinel` (`src/sentinel.rs`):
appends to the error vector. -/
def ErrorSentinel.push_error {E : Type} (s : ErrorSentinel E) (error : E) : ErrorSentinel E :=
  { s with errors := s.errors ++ [error] }

/-- `ErrorCollector::push_error` for `Fallible` (`src/fallible.rs`). -/
def Fallible.push_error {T E : Type} (f : Fallible T E) (error : E) : Fallible T E :=
  { f with errors := f.errors ++ [error] }

/-- `ErrorCollector::push_error` for `Outcome` (`src/outcome.rs`). -/
def Outcome.push_error {T E : Type} (o : Outcome T E) (error : E) : Outcome T E :=
  { o with errors := o.errors ++ [error] }

instance instCollectorSentinel {E : Type} : ErrorCollector (ErrorSentinel E) E :=
  ⟨ErrorSentinel.push_error⟩

instance instCollectorFallible {T E : Type} : ErrorCollector (Fallible T E) E :=
  ⟨Fallible.push_error⟩

instance instCollectorOutcome {T E : Type} : ErrorCollector (Outcome T E) E :=
  ⟨Outcome.push_error⟩

/-- `ErrorSentinel::peek`: read-only view of the errors, no state change. -/
def ErrorSentinel.peek {E : Type} (s : ErrorSentinel E) : List E :=
  s.errors

/-- `ErrorSentinel::handle`: sets `handled`, then passes the errors to the
handler and returns its result (paired with the final state of `self`). -/
def ErrorSentinel.handle {E R : Type} (s : ErrorSentinel E) (handler : List E → R) :
    R × ErrorSentinel E :=
  (handler s.errors, { s with handled := true })

/-- `ErrorSentinel::ignore`: sets `handled` and discards the errors. -/
def ErrorSentinel.ignore {E : Type} (s : ErrorSentinel E) : ErrorSentinel E :=
  { s with handled := true }

/-- `ErrorSentinel::into_errors_iter`: marks the sentinel handled and hands
its errors to a fresh iterator recording the original length. Returns the
iterator paired with the final state of the consumed sentinel. -/
def ErrorSentinel.into_errors_iter {E : Type} (s : ErrorSentinel E) :
    ErrorSentinelIter E × ErrorSentinel E :=
  ({ original_len := s.errors.length, iter := s.errors }, { s with handled := true })

/-- `ErrorSentinel::propagate`: `for error in self.into_errors_iter() {
other.push_error(error) }`. Returns the updated collector paired with the
final state of the consumed sentinel. -/
def ErrorSentinel.propagate {E σ : Type} [ErrorCollector σ E] (s : ErrorSentinel E)
    (other : σ) : σ × ErrorSentinel E :=
  let (it, s2) := s.into_errors_iter
  (it.iter.foldl ErrorCollector.push_error other, s2)

/-- `ErrorSentinel::unwrap`: sets `handled`; panics with a message carrying
the debug form of the errors when the list is non-empty. First component is
the optional panic message. -/
def ErrorSentinel.unwrap {E : Type} (s : ErrorSentinel E) (dbg : List E → String) :
    Option String × ErrorSentinel E :=
  let s2 := { s with handled := true }
  if s.peek.isEmpty then (none, s2)
  else (some ("called `unwrap` on a sentinel with errors: " ++ dbg s.errors), s2)

/-- `ErrorSentinel::expect`: sets `handled`; panics with the caller-supplied
message when the list is non-empty. -/
def ErrorSentinel.expect {E : Type} (s : ErrorSentinel E) (msg : String) :
    Option String × ErrorSentinel E :=
  let s2 := { s with handled := true }
  if s.peek.isEmpty then (none, s2) else (some msg, s2)

/-- `Fallible::new`: value with no errors. -/
def Fallible.new {T E : Type} (value : T) : Fallible T E :=
  { value := value, errors := [] }

/-- `Fallible::new_with_errors`. -/
def Fallible.new_with_errors {T E : Type} (value : T) (errors : List E) : Fallible T E :=
  { value := value, errors := errors }

/-- `ErrorSentinel::into_fallible`: builds `Fallible::new(value)` and
propagates this sentinel's errors into it. Returns the fallible paired with
the final state of the consumed sentinel. -/
def ErrorSentinel.into_fallible {E T : Type} (s : ErrorSentinel E) (value : T) :
    Fallible T E × ErrorSentinel E :=
  s.propagate (Fallible.new value)

/-- `Outcome::new`. -/
def Outcome.new {T E : Type} (value : T) : Outcome T E :=
  { value := value, errors := [] }

/-- `Outcome::new_with_errors`. -/
def Outcome.new_with_errors {T E : Type} (value : T) (errors : List E) : Outcome T E :=
  { value := value, errors := errors }

/-- Modelled from the spec: `ErrorSentinel::into_outcome`, called by
`Outcome::build` but not present in `src/sentinel.rs` (which provides the
parallel `into_fallible`); per spec §4.4 and §4.2 it constructs a new
container from `value` with this sentinel's errors propagated into it. -/
def ErrorSentinel.into_outcome {E T : Type} (s : ErrorSentinel E) (value : T) :
    Outcome T E × ErrorSentinel E :=
  s.propagate (Outcome.new value)

/-- `Drop for ErrorSentinel`: panics unless the thread is already panicking
or the sentinel was handled. -/
def ErrorSentinel.dropMsg {E : Type} (panicking : Bool) (s : ErrorSentinel E) :
    Option String :=
  if !panicking && !s.handled then some "sentinel dropped without handling errors"
  else none

/-- `ErrorSentinelIter::next` (the `Iterator` impl, delegating to
`vec::IntoIter::next`). -/
def ErrorSentinelIter.next {E : Type} (it : ErrorSentinelIter E) :
    Option E × ErrorSentinelIter E :=
  match it.iter with
  | [] => (none, it)
  | e :: rest => (some e, { it with iter := rest })

/-- `ExactSizeIterator::len` for `ErrorSentinelIter`: remaining count. -/
def ErrorSentinelIter.len {E : Type} (it : ErrorSentinelIter E) : Nat :=
  it.iter.length

/-- `ErrorSentinelIter::is_handled`: `self.len() == 0`. -/
def ErrorSentinelIter.is_handled {E : Type} (it : ErrorSentinelIter E) : Bool :=
  it.len == 0

/-- Calling `next` a given number of times, discarding the yielded items. -/
def ErrorSentinelIter.consume {E : Type} : ErrorSentinelIter E → Nat → ErrorSentinelIter E
  | it, 0 => it
  | it, Nat.succ k => ErrorSentinelIter.consume it.next.2 k

/-- `Drop for ErrorSentinelIter`: panics, naming the remaining and original
counts, unless the thread is already panicking or the iterator is exhausted. -/
def ErrorSentinelIter.dropMsg {E : Type} (panicking : Bool) (it : ErrorSentinelIter E) :
    Option String :=
  if !panicking && !it.is_handled then
    some ("sentinel iterator dropped without handling all errors: "
      ++ toString it.len ++ " out of " ++ toString it.original_len
      ++ " error(s) unhandled")
  else none

/-- `Fallible::build`: runs the closure on an empty sentinel, then converts
the sentinel into a `Fallible` around the closure's value. The closure is
modelled as a state transformer on the sentinel it receives by `&mut`. -/
def Fallible.build {T E : Type} (func : ErrorSentinel E → T × ErrorSentinel E) :
    Fallible T E :=
  let sentinel := ErrorSentinel.empty
  let (value, sentinel2) := func sentinel
  (sentinel2.into_fallible value).1

/-- `Fallible::propagate`: pushes each error, in order, into `other`, then
returns the value. The updated collector is returned alongside. -/
def Fallible.propagate {T E σ : Type} [ErrorCollector σ E] (f : Fallible T E)
    (other : σ) : T × σ :=
  (f.value, f.errors.foldl ErrorCollector.push_error other)

/-- `Fallible::integrate`: folds this value into the other container's value
via `func`, then pushes this container's errors onto the other's. -/
def Fallible.integrate {T OT E : Type} (f : Fallible T E) (other : Fallible OT E)
    (func : OT → T → OT) : Fallible OT E :=
  let other2 := { other with value := func other.value f.value }
  f.errors.foldl Fallible.push_error other2

/-- `Fallible::zip`: tuple of the values, errors chained self-then-other. -/
def Fallible.zip {T OT E : Type} (f : Fallible T E) (other : Fallible OT E) :
    Fallible (T × OT) E :=
  Fallible.new_with_errors (f.value, other.value) (f.errors ++ other.errors)

/-- `Fallible::len_errors`. -/
def Fallible.len_errors {T E : Type} (f : Fallible T E) : Nat :=
  f.errors.length

/-- `Fallible::is_success`: `len_errors == 0`. -/
def Fallible.is_success {T E : Type} (f : Fallible T E) : Bool :=
  f.len_errors == 0

/-- `Fallible::finalize`: splits into the value and a fresh sentinel. -/
def Fallible.finalize {T E : Type} (f : Fallible T E) : T × ErrorSentinel E :=
  (f.value, ErrorSentinel.new f.errors)

/-- `FromIterator for Fallible` (`src/fallible.rs`): the loop pushes each
value and extends the error vector, in iteration order; the output collection
is fixed to a list. -/
def Fallible.from_iter {T E : Type} (l : List (Fallible T E)) : Fallible (List T) E :=
  let items := l.foldl (fun acc item => acc ++ [item.value]) []
  let errors := l.foldl (fun acc item => acc ++ item.errors) []
  Fallible.new_with_errors items errors

/-- `Outcome::build`: runs the closure on an empty sentinel, then converts the
sentinel into an `Outcome` around the closure's value. -/
def Outcome.build {T E : Type} (func : ErrorSentinel E → T × ErrorSentinel E) :
    Outcome T E :=
  let sentinel := ErrorSentinel.empty
  let (value, sentinel2) := func sentinel
  (sentinel2.into_outcome value).1

/-- `Outcome::propagate`. -/
def Outcome.propagate {T E σ : Type} [ErrorCollector σ E] (o : Outcome T E)
    (other : σ) : T × σ :=
  (o.value, o.errors.foldl ErrorCollector.push_error other)

/-- `Outcome::integrate`. -/
def Outcome.integrate {T OT E : Type} (o : Outcome T E) (other : Outcome OT E)
    (func : OT → T → OT) : Outcome OT E :=
  let other2 := { other with value := func other.value o.value }
  o.errors.foldl Outcome.push_error other2

/-- `Outcome::zip`. -/
def Outcome.zip {T OT E : Type} (o : Outcome T E) (other : Outcome OT E) :
    Outcome (T × OT) E :=
  Outcome.new_with_errors (o.value, other.value) (o.errors ++ other.errors)

/-- `Outcome::len_errors`. -/
def Outcome.len_errors {T E : Type} (o : Outcome T E) : Nat :=
  o.errors.length

/-- `Outcome::is_success`. -/
def Outcome.is_success {T E : Type} (o : Outcome T E) : Bool :=
  o.len_errors == 0

/-- `Outcome::unwrap`: the value if there are no errors, else a panic whose
message carries the debug form of the errors. -/
def Outcome.unwrap {T E : Type} (o : Outcome T E) (dbg : List E → String) :
    Except String T :=
  if o.is_success then Except.ok o.value
  else Except.error ("called `unwrap` on a Outcome with errors: " ++ dbg o.errors)

/-- `Outcome::expect`: the value if there are no errors, else a panic with
the caller-supplied message. -/
def Outcome.expect {T E : Type} (o : Outcome T E) (msg : String) : Except String T :=
  if o.is_success then Except.ok o.value else Except.error msg

/-- `Outcome::into_errors`: discards the value, yielding a fresh sentinel. -/
def Outcome.into_errors {T E : Type} (o : Outcome T E) : ErrorSentinel E :=
  ErrorSentinel.new o.errors

/-- `Outcome::into_result`: `Ok(value)` when error-free, else
`Err(self.into_errors())`. -/
def Outcome.into_result {T E : Type} (o : Outcome T E) : Except (ErrorSentinel E) T :=
  if o.is_success then Except.ok o.value else Except.error o.into_errors

/-- `Outcome::finalize`. -/
def Outcome.finalize {T E : Type} (o : Outcome T E) : T × ErrorSentinel E :=
  (o.value, ErrorSentinel.new o.errors)

/-- `FromIterator for Outcome` (`src/outcome.rs`). -/
def Outcome.from_iter {T E : Type} (l : List (Outcome T E)) : Outcome (List T) E :=
  let items := l.foldl (fun acc item => acc ++ [item.value]) []
  let errors := l.foldl (fun acc item => acc ++ item.errors) []
  Outcome.new_with_errors items errors

/-! ## Helper lemmas -/

/-- Folding `push_error` over an `ErrorSentinel` appends the pushed errors. -/
lemma sentinel_foldl_push {E : Type} (errs : List E) (s : ErrorSentinel E) :
    List.foldl ErrorSentinel.push_error s errs
      = ErrorSentinel.mk (s.errors ++ errs) s.handled := by
  induction errs generalizing s with
  | nil => simp
  | cons x xs ih => simp [List.foldl_cons, ih, ErrorSentinel.push_error, List.append_assoc]

/-- Folding `push_error` over a `Fallible` appends the pushed errors. -/
lemma fallible_foldl_push {T E : Type} (errs : List E) (f : Fallible T E) :
    List.foldl Fallible.push_error f errs = Fallible.mk f.value (f.errors ++ errs) := by
  induction errs generalizing f with
  | nil => simp
  | cons x xs ih => simp [List.foldl_cons, ih, Fallible.push_error, List.append_assoc]

/-- Folding `push_error` over an `Outcome` appends the pushed errors. -/
lemma outcome_foldl_push {T E : Type} (errs : List E) (o : Outcome T E) :
    List.foldl Outcome.push_error o errs = Outcome.mk o.value (o.errors ++ errs) := by
  induction errs generalizing o with
  | nil => simp
  | cons x xs ih => simp [List.foldl_cons, ih, Outcome.push_error, List.append_assoc]

/-- `consume` drops consumed elements from the front and keeps `original_len`. -/
lemma consume_spec {E : Type} (k : Nat) (it : ErrorSentinelIter E) :
    (it.consume k).iter = it.iter.drop k
      ∧ (it.consume k).original_len = it.original_len := by
  induction k generalizing it with
  | zero => simp [ErrorSentinelIter.consume]
  | succ k ih =>
    cases h : it.iter with
    | nil =>
      have hnext : it.next.2 = it := by simp [ErrorSentinelIter.next, h]
      have := ih it
      simp [ErrorSentinelIter.consume, hnext, this.1, this.2, h]
    | cons e rest =>
      have hnext : it.next.2 = { it with iter := rest } := by
        simp [ErrorSentinelIter.next, h]
      have := ih { it with iter := rest }
      constructor
      · simp [ErrorSentinelIter.consume, hnext, this.1, h]
      · simp [ErrorSentinelIter.consume, hnext, this.2]

/-- Folding value pushes over a list of `Fallible`s collects the values. -/
lemma fallible_foldl_values {T E : Type} (l : List (Fallible T E)) (acc : List T) :
    List.foldl (fun a item => a ++ [item.value]) acc l = acc ++ l.map Fallible.value := by
  induction l generalizing acc with
  | nil => simp
  | cons x xs ih => simp [ih, List.append_assoc]

/-- Folding error extensions over a list of `Fallible`s concatenates the lists. -/
lemma fallible_foldl_errors {T E : Type} (l : List (Fallible T E)) (acc : List E) :
    List.foldl (fun a item => a ++ item.errors) acc l
      = acc ++ (l.map Fallible.errors).flatten := by
  induction l generalizing acc with
  | nil => simp
  | cons x xs ih => simp [ih, List.append_assoc]

/-- Folding value pushes over a list of `Outcome`s collects the values. -/
lemma outcome_foldl_values {T E : Type} (l : List (Outcome T E)) (acc : List T) :
    List.foldl (fun a item => a ++ [item.value]) acc l = acc ++ l.map Outcome.value := by
  induction l generalizing acc with
  | nil => simp
  | cons x xs ih => simp [ih, List.append_assoc]

/-- Folding error extensions over a list of `Outcome`s concatenates the lists. -/
lemma outcome_foldl_errors {T E : Type} (l : List (Outcome T E)) (acc : List E) :
    List.foldl (fun a item => a ++ item.errors) acc l
      = acc ++ (l.map Outcome.errors).flatten := by
  induction l generalizing acc with
  | nil => simp
  | cons x xs ih => simp [ih, List.append_assoc]

/-! ## Claim theorems -/

/-- Claim C1: a freshly constructed sentinel (from any error list, empty
included) panics on drop; after exactly one of `handle`, `ignore`, `unwrap`
(no errors), `expect` (no errors), `propagate` or `into_fallible`, the
subsequent drop never panics. -/
theorem sentinel_disposal_completeness {E R T : Type} (errs : List E)
    (handler : List E → R) (dbg : List E → String) (msg : String) (v : T)
    (dest : Fallible T E) :
    ErrorSentinel.dropMsg false (ErrorSentinel.new errs)
        = some "sentinel dropped without handling errors"
    ∧ ErrorSentinel.dropMsg false ((ErrorSentinel.new errs).handle handler).2 = none
    ∧ ErrorSentinel.dropMsg false ((ErrorSentinel.new errs).ignore) = none
    ∧ ((ErrorSentinel.new ([] : List E)).unwrap dbg).1 = none
    ∧ ErrorSentinel.dropMsg false ((ErrorSentinel.new ([] : List E)).unwrap dbg).2 = none
    ∧ ((ErrorSentinel.new ([] : List E)).expect msg).1 = none
    ∧ ErrorSentinel.dropMsg false ((ErrorSentinel.new ([] : List E)).expect msg).2 = none
    ∧ ErrorSentinel.dropMsg false ((ErrorSentinel.new errs).propagate dest).2 = none
    ∧ ErrorSentinel.dropMsg false ((ErrorSentinel.new errs).into_fallible v).2 = none := by
  simp [ErrorSentinel.dropMsg, ErrorSentinel.new, ErrorSentinel.handle,
    ErrorSentinel.ignore, ErrorSentinel.unwrap, ErrorSentinel.expect,
    ErrorSentinel.propagate, ErrorSentinel.into_fallible,
    ErrorSentinel.into_errors_iter, ErrorSentinel.peek]

/-- Claim C2: an iterator over N ≥ 1 errors panics on drop after consuming
fewer than N items, naming the remaining and original counts; after consuming
exactly N items, drop does not panic. -/
theorem iter_partial_consumption_panics {E : Type} (e : E) (rest : List E) (k : Nat)
    (h : k < (e :: rest).length) :
    ErrorSentinelIter.dropMsg false
        (((ErrorSentinel.new (e :: rest)).into_errors_iter).1.consume k)
      = some ("sentinel iterator dropped without handling all errors: "
          ++ toString ((e :: rest).length - k) ++ " out of "
          ++ toString (e :: rest).length ++ " error(s) unhandled")
    ∧ ErrorSentinelIter.dropMsg false
        (((ErrorSentinel.new (e :: rest)).into_errors_iter).1.consume (e :: rest).length)
      = none := by
  have h1 := consume_spec k ((ErrorSentinel.new (e :: rest)).into_errors_iter).1
  have h2 := consume_spec (e :: rest).length
    ((ErrorSentinel.new (e :: rest)).into_errors_iter).1
  simp only [ErrorSentinel.into_errors_iter, ErrorSentinel.new] at h1 h2
  obtain ⟨h1i, h1o⟩ := h1
  obtain ⟨h2i, h2o⟩ := h2
  constructor
  · simp only [ErrorSentinel.into_errors_iter, ErrorSentinel.new,
      ErrorSentinelIter.dropMsg, ErrorSentinelIter.is_handled, ErrorSentinelIter.len,
      h1i, h1o, List.length_drop]
    simp only [List.length_cons] at h
    simp
    omega
  · simp only [ErrorSentinel.into_errors_iter, ErrorSentinel.new,
      ErrorSentinelIter.dropMsg, ErrorSentinelIter.is_handled, ErrorSentinelIter.len,
      h2i, h2o, List.drop_length]
    simp

/-- Witness for C2 at a concrete input: two errors, one consumed. -/
theorem iter_partial_consumption_panics_witness :
    (1 < (("a" : String) :: ["b"]).length)
    ∧ (ErrorSentinelIter.dropMsg false
          (((ErrorSentinel.new (("a" : String) :: ["b"])).into_errors_iter).1.consume 1)
        = some ("sentinel iterator dropped without handling all errors: "
            ++ toString ((("a" : String) :: ["b"]).length - 1) ++ " out of "
            ++ toString (("a" : String) :: ["b"]).length ++ " error(s) unhandled")
      ∧ ErrorSentinelIter.dropMsg false
          (((ErrorSentinel.new (("a" : String) :: ["b"])).into_errors_iter).1.consume
            (("a" : String) :: ["b"]).length)
        = none) :=
  ⟨by decide, iter_partial_consumption_panics "a" ["b"] 1 (by decide)⟩

/-- Claim C3: when the thread is already unwinding (`panicking() == true`),
neither destructor ever raises the unhandled-errors panic, whatever the
state. -/
theorem drop_suppressed_during_unwinding {E F : Type} (s : ErrorSentinel E)
    (it : ErrorSentinelIter F) :
    ErrorSentinel.dropMsg true s = none ∧ ErrorSentinelIter.dropMsg true it = none := by
  simp [ErrorSentinel.dropMsg, ErrorSentinelIter.dropMsg]

/-- Claim C4: with zero errors, `unwrap`/`expect` return the value and
`into_result` takes the success path; with at least one error, `unwrap`
panics with the errors' debug form, `expect` panics with the caller's
message, and `into_result` yields a sentinel carrying exactly those errors in
order. `ErrorSentinel::unwrap` is a no-op on an empty list and panics with
the errors' debug form otherwise. -/
theorem no_error_short_circuit {T E : Type} (v : T) (e : E) (rest : List E)
    (dbg : List E → String) (msg : String) :
    (Outcome.mk v ([] : List E)).unwrap dbg = Except.ok v
    ∧ (Outcome.mk v ([] : List E)).expect msg = Except.ok v
    ∧ (Outcome.mk v ([] : List E)).into_result = Except.ok v
    ∧ (Outcome.mk v (e :: rest)).unwrap dbg
        = Except.error ("called `unwrap` on a Outcome with errors: " ++ dbg (e :: rest))
    ∧ (Outcome.mk v (e :: rest)).expect msg = Except.error msg
    ∧ (Outcome.mk v (e :: rest)).into_result
        = Except.error (ErrorSentinel.new (e :: rest))
    ∧ ((ErrorSentinel.new ([] : List E)).unwrap dbg).1 = none
    ∧ ((ErrorSentinel.new (e :: rest)).unwrap dbg).1
        = some ("called `unwrap` on a sentinel with errors: " ++ dbg (e :: rest)) := by
  simp [Outcome.unwrap, Outcome.expect, Outcome.into_result, Outcome.into_errors,
    Outcome.is_success, Outcome.len_errors, ErrorSentinel.unwrap, ErrorSentinel.peek,
    ErrorSentinel.new]

/-- Claim C5: `zip` pairs the values and concatenates self's errors before
the other's, for both container kinds; concretely, value 5 with
`["e1", "e2"]` zipped with value 9 with `["e3"]` gives `(5, 9)` and
`["e1", "e2", "e3"]`. -/
theorem zip_pairs_values_concats_errors {T OT E : Type} (a : Fallible T E)
    (b : Fallible OT E) (c : Outcome T E) (d : Outcome OT E) :
    (a.zip b).value = (a.value, b.value)
    ∧ (a.zip b).errors = a.errors ++ b.errors
    ∧ (c.zip d).value = (c.value, d.value)
    ∧ (c.zip d).errors = c.errors ++ d.errors
    ∧ (Fallible.new_with_errors (5 : Nat) ["e1", "e2"]).zip
        (Fallible.new_with_errors (9 : Nat) ["e3"])
        = Fallible.new_with_errors (5, 9) ["e1", "e2", "e3"]
    ∧ (Outcome.new_with_errors (5 : Nat) ["e1", "e2"]).zip
        (Outcome.new_with_errors (9 : Nat) ["e3"])
        = Outcome.new_with_errors (5, 9) ["e1", "e2", "e3"] := by
  simp [Fallible.zip, Outcome.zip, Fallible.new_with_errors, Outcome.new_with_errors]

/-- Claim C6: `propagate` returns the wrapped value (nothing for a sentinel),
appends the source's errors in order after the destination's existing ones,
and conserves the total error count. -/
theorem propagate_moves_errors_in_order {T OT E : Type} (a : Fallible T E)
    (b : Fallible OT E) (c : Outcome T E) (d : Outcome OT E)
    (s t : ErrorSentinel E) (u : Fallible OT E) :
    a.propagate b = (a.value, Fallible.mk b.value (b.errors ++ a.errors))
    ∧ (a.propagate b).2.errors.length = b.errors.length + a.errors.length
    ∧ c.propagate d = (c.value, Outcome.mk d.value (d.errors ++ c.errors))
    ∧ (c.propagate d).2.errors.length = d.errors.length + c.errors.length
    ∧ (s.propagate t).1 = ErrorSentinel.mk (t.errors ++ s.errors) t.handled
    ∧ (s.propagate t).1.errors.length = t.errors.length + s.errors.length
    ∧ (s.propagate t).2.handled = true
    ∧ (s.propagate u).1 = Fallible.mk u.value (u.errors ++ s.errors) := by
  simp [Fallible.propagate, Outcome.propagate, ErrorSentinel.propagate,
    ErrorSentinel.into_errors_iter, instCollectorFallible, instCollectorOutcome,
    instCollectorSentinel, fallible_foldl_push, outcome_foldl_push, sentinel_foldl_push]

/-- Claim C7: `build` runs the closure on an empty sentinel and wraps the
closure's value with exactly the errors accumulated in that sentinel, in
push order, for both container kinds. -/
theorem build_wraps_closure_value_and_errors {T E : Type}
    (func : ErrorSentinel E → T × ErrorSentinel E) :
    Fallible.build func
        = Fallible.new_with_errors (func ErrorSentinel.empty).1
            (func ErrorSentinel.empty).2.errors
    ∧ Outcome.build func
        = Outcome.new_with_errors (func ErrorSentinel.empty).1
            (func ErrorSentinel.empty).2.errors := by
  rcases hfe : func ErrorSentinel.empty with ⟨v, s2⟩
  simp [Fallible.build, Outcome.build, hfe, ErrorSentinel.into_fallible,
    ErrorSentinel.into_outcome, ErrorSentinel.propagate, ErrorSentinel.into_errors_iter,
    Fallible.new, Outcome.new, instCollectorFallible, instCollectorOutcome,
    fallible_foldl_push, outcome_foldl_push, Fallible.new_with_errors,
    Outcome.new_with_errors]

/-- Claim C8: `from_iter` collects the values in order and concatenates the
error lists in outer-item order; concretely, values `[1, 2, 3]` with error
lists `[["e1", "e2"], ["e3"], ["e4", "e5"]]` give value `[1, 2, 3]` and
errors `["e1", "e2", "e3", "e4", "e5"]`. -/
theorem from_iter_collects_values_and_errors {T E : Type} (l : List (Fallible T E))
    (m : List (Outcome T E)) :
    Fallible.from_iter l
        = Fallible.new_with_errors (l.map Fallible.value) (l.map Fallible.errors).flatten
    ∧ Outcome.from_iter m
        = Outcome.new_with_errors (m.map Outcome.value) (m.map Outcome.errors).flatten
    ∧ Fallible.from_iter
        [Fallible.new_with_errors (1 : Nat) ["e1", "e2"],
          Fallible.new_with_errors 2 ["e3"], Fallible.new_with_errors 3 ["e4", "e5"]]
        = Fallible.new_with_errors [1, 2, 3] ["e1", "e2", "e3", "e4", "e5"]
    ∧ Outcome.from_iter
        [Outcome.new_with_errors (1 : Nat) ["e1", "e2"],
          Outcome.new_with_errors 2 ["e3"], Outcome.new_with_errors 3 ["e4", "e5"]]
        = Outcome.new_with_errors [1, 2, 3] ["e1", "e2", "e3", "e4", "e5"] := by
  refine ⟨?_, ?_, by decide, by decide⟩
  · simp [Fallible.from_iter, fallible_foldl_values, fallible_foldl_errors,
      Fallible.new_with_errors]
  · simp [Outcome.from_iter, outcome_foldl_values, outcome_foldl_errors,
      Outcome.new_with_errors]

/-- Claim C9: `integrate` replaces the destination's value with
`f(dest_value, src_value)` and appends the source's errors after the
destination's existing ones, for both container kinds. -/
theorem integrate_folds_value_appends_errors {T OT E : Type} (a : Fallible T E)
    (b : Fallible OT E) (c : Outcome T E) (d : Outcome OT E) (f g : OT → T → OT) :
    a.integrate b f = Fallible.mk (f b.value a.value) (b.errors ++ a.errors)
    ∧ c.integrate d g = Outcome.mk (g d.value c.value) (d.errors ++ c.errors) := by
  simp [Fallible.integrate, Outcome.integrate, fallible_foldl_push, outcome_foldl_push]

/-- Claim C10: the iterator obtained from a zero-error sentinel is
immediately handled (`is_handled` true, `len` 0) and its drop never
panics. -/
theorem empty_sentinel_iter_immediately_handled {E : Type} (handled : Bool) :
    ((ErrorSentinel.mk ([] : List E) handled).into_errors_iter).1.is_handled = true
    ∧ ((ErrorSentinel.mk ([] : List E) handled).into_errors_iter).1.len = 0
    ∧ ErrorSentinelIter.dropMsg false
        ((ErrorSentinel.mk ([] : List E) handled).into_errors_iter).1 = none := by
  simp [ErrorSentinel.into_errors_iter, ErrorSentinelIter.is_handled,
    ErrorSentinelIter.len, ErrorSentinelIter.dropMsg]

end Multierror
